import Mathlib

/-!
Verification of the apistar-websocket adapter
(src/apistar_websocket/websocket.py) against its design specification.

The adapter manipulates ASGI-style message dictionaries.  We embed these
dictionaries as association lists from string keys to a small value type,
with Python-dict update semantics (assignment replaces the value at an
existing key in place, otherwise appends).  The asynchronous operations of
the `WebSocket` class are pure functions from the awaited inbound message
to the result and the list of outbound messages handed to `asgi_send`;
the `WebSocketAutoHook` methods become functions from their inputs to the
list of calls they perform on the `WebSocket` instance.
-/

namespace ApistarWebsocket

/-- A Python value that can appear in an ASGI message dictionary:
a string, a bytes object (modelled as its list of byte values), or an
integer (used for close status codes). -/
inductive Value where
  | vstr (s : String)
  | vbytes (b : List Nat)
  | vint (n : Nat)
  deriving DecidableEq, Repr

/-- An ASGI message (or scope): a Python dict from string keys to values,
embedded as an association list whose first matching key wins on lookup. -/
abbrev Msg := List (String × Value)

/-- Python `d.get(k)` / `d[k]` lookup: the value at the first occurrence of
the key, if any. -/
def dlookup : Msg → String → Option Value
  | [], _ => none
  | (k1, v1) :: rest, k => if k1 = k then some v1 else dlookup rest k

/-- Python `d[k] = v`: replace the value at an existing key in place,
otherwise append the binding. -/
def dset : Msg → String → Value → Msg
  | [], k, v => [(k, v)]
  | (k1, v1) :: rest, k, v =>
      if k1 = k then (k1, v) :: rest else (k1, v1) :: dset rest k v

/-- Python `d.update(kw)`: assign every binding of `kw` into `d`. -/
def dupdate (d : Msg) (kw : Msg) : Msg :=
  kw.foldl (fun m p => dset m p.1 p.2) d

/-- The `data` payload argument of `send`/`close`: a Python string or a
Python bytes object. -/
inductive Data where
  | str (s : String)
  | bin (b : List Nat)
  deriving DecidableEq, Repr

/-- Python truthiness of a payload: empty strings and empty bytes are
falsy, everything else is truthy. -/
def Data.truthy : Data → Bool
  | .str s => s ≠ ""
  | .bin b => b ≠ []

/-! The `Status` enumeration of websocket.py (RFC 6455 close codes). -/

def Status.OK : Nat := 1000
def Status.LEAVING : Nat := 1001
def Status.PROT_ERROR : Nat := 1002
def Status.UNSUPPORTED_TYPE : Nat := 1003
def Status.RESERVED_1004 : Nat := 1004
def Status.NO_STATUS : Nat := 1005
def Status.CLOSED_ABNORMAL : Nat := 1006
def Status.INALID_DATA : Nat := 1007
def Status.POLICY_VIOLATION : Nat := 1008
def Status.TOO_BIG : Nat := 1009
def Status.TLS_FAIL : Nat := 1010

/-- The observable payload of an `apistar.exceptions.HTTPException`:
its detail string and the status code handed to the base constructor. -/
structure HTTPException where
  detail : String
  status_code : Nat
  deriving DecidableEq, Repr

/-- Default `detail` parameter of `WebSocketClosed.__init__`. -/
def WebSocketClosed.defaultDetail : String := "WebSocket has closed"

/-- Default `status_code` parameter of `WebSocketClosed.__init__`
(`Status.OK.value`).  Note the constructor body never uses it. -/
def WebSocketClosed.defaultStatusParam : Nat := Status.OK

/-- Model of `WebSocketClosed.__init__`: forwards `detail` but hands the literal
`200` to `HTTPException.__init__`, ignoring the `status_code` parameter. -/
def WebSocketClosed.make (detail : String) (status_code : Nat) : HTTPException :=
  ⟨detail, 200⟩

/-- Default `detail` parameter of `WebSocketProtocolError.__init__`. -/
def WebSocketProtocolError.defaultDetail : String := "WebSocket protocol error"

/-- Default `status_code` parameter of `WebSocketProtocolError.__init__`
(`Status.PROT_ERROR.value`). -/
def WebSocketProtocolError.defaultStatus : Nat := Status.PROT_ERROR

/-- Model of `WebSocketProtocolError.__init__`: forwards both `detail` and
`status_code` to `HTTPException.__init__`. -/
def WebSocketProtocolError.make (detail : String) (status_code : Nat) : HTTPException :=
  ⟨detail, status_code⟩

/-! Python `"%s" % v` formatting of a message value, used by `connect` to
build the protocol-error detail.  Strings format as themselves, integers in
decimal, bytes with the `repr` of a bytes object. -/

/-- Lowercase hexadecimal digit. -/
def hexDigit (n : Nat) : Char :=
  if n < 10 then Char.ofNat (48 + n) else Char.ofNat (87 + n)

/-- Python repr of a single byte inside a bytes literal. -/
def pyByteRepr (b : Nat) : String :=
  if b = 9 then "\\t"
  else if b = 10 then "\\n"
  else if b = 13 then "\\r"
  else if b = 39 then "\\\x27"
  else if b = 92 then "\\\\"
  else if 32 ≤ b ∧ b ≤ 126 then (Char.ofNat b).toString
  else "\\x" ++ (hexDigit (b / 16 % 16)).toString ++ (hexDigit (b % 16)).toString

/-- Python str() of a bytes object (single-quoted repr). -/
def pyBytesStr (bs : List Nat) : String :=
  "b\x27" ++ String.join (bs.map pyByteRepr) ++ "\x27"

/-- Python `"%s" % v` for a message value. -/
def formatValue : Value → String
  | .vstr s => s
  | .vint n => toString n
  | .vbytes b => pyBytesStr b

/-- The common payload block of `send` and `close`:
`if data:` followed by the `isinstance` dispatch that stores a truthy
string payload under `text` and a truthy bytes payload under `bytes`. -/
def setContent (msg : Msg) (data : Option Data) : Msg :=
  match data with
  | none => msg
  | some (.str s) => if s ≠ "" then dset msg "text" (Value.vstr s) else msg
  | some (.bin b) => if b ≠ [] then dset msg "bytes" (Value.vbytes b) else msg

/-- Model of `WebSocket.send(data, **kwargs)`: start from
`{"type": "websocket.send"}`, merge the caller-supplied keyword fields,
then store the payload.  The result is the single message handed to
`asgi_send`. -/
def WebSocket.send (data : Option Data) (kwargs : Msg) : Msg :=
  setContent (dupdate [("type", Value.vstr "websocket.send")] kwargs) data

/-- Model of `WebSocket.receive()`: `msg.get("text", msg.get("bytes"))` applied to
the awaited inbound message. -/
def WebSocket.receive (msg : Msg) : Option Value :=
  match dlookup msg "text" with
  | some v => some v
  | none => dlookup msg "bytes"

/-- An exception escaping `WebSocket.connect`: a `KeyError` when the
inbound message has no `type` key, or the raised
`WebSocketProtocolError`. -/
inductive ConnectError where
  | keyError
  | protocolError (e : HTTPException)
  deriving DecidableEq, Repr

/-- Model of `WebSocket.connect()`: awaits the first inbound message; if its type
is not `websocket.connect`, raises `WebSocketProtocolError` naming the
unexpected type; otherwise sends `{"type": "websocket.accept"}`.  The
second component lists the messages handed to `asgi_send`. -/
def WebSocket.connect (msg : Msg) : Except ConnectError Unit × List Msg :=
  match dlookup msg "type" with
  | none => (Except.error ConnectError.keyError, [])
  | some v =>
      if v = Value.vstr "websocket.connect" then
        (Except.ok (), [[("type", Value.vstr "websocket.accept")]])
      else
        (Except.error (ConnectError.protocolError
          (WebSocketProtocolError.make
            ("Expected websocket connection but got: " ++ formatValue v)
            WebSocketProtocolError.defaultStatus)), [])

/-- The message built by `WebSocket.close(code, data)`. -/
def WebSocket.closeMessage (code : Nat) (data : Option Data) : Msg :=
  setContent
    [("type", Value.vstr "websocket.disconnect"), ("code", Value.vint code)]
    data

/-- Model of `WebSocket.close(code, data)`: the list of messages handed to
`asgi_send` (exactly one). -/
def WebSocket.close (code : Nat) (data : Option Data) : List Msg :=
  [WebSocket.closeMessage code data]

/-- Default value of the `code` parameter of `WebSocket.close`
(`Status.OK.value`). -/
def WebSocket.closeDefaultCode : Nat := Status.OK

/-- The `apistar.http.Response` passed to the hook callbacks: only its
`content` attribute is observable here. -/
structure Response where
  content : Option Data
  deriving DecidableEq, Repr

/-- Python `response.content if response else None`. -/
def responseClosePayload (response : Option Response) : Option Data :=
  match response with
  | none => none
  | some r => r.content

/-- A call the `WebSocketAutoHook` performs on its `WebSocket`. -/
inductive WsCall where
  | connectCall
  | closeCall (code : Nat) (data : Option Data)
  deriving DecidableEq, Repr

/-- Model of `WebSocketAutoHook.on_request`: connect when the request scope has
type `websocket`, otherwise do nothing. -/
def WebSocketAutoHook.on_request (scope : Msg) : List WsCall :=
  if dlookup scope "type" = some (Value.vstr "websocket") then
    [WsCall.connectCall]
  else []

/-- Model of `WebSocketAutoHook.on_response`: when the scope has type `websocket`
and the socket is open, close with the default code and
`response.content if response else None` as payload. -/
def WebSocketAutoHook.on_response (scope : Msg) (is_open : Bool)
    (response : Option Response) : List WsCall :=
  if dlookup scope "type" = some (Value.vstr "websocket") ∧ is_open then
    [WsCall.closeCall Status.OK (responseClosePayload response)]
  else []

/-- Model of `WebSocketAutoHook.on_error`: same text as `on_response`. -/
def WebSocketAutoHook.on_error (scope : Msg) (is_open : Bool)
    (response : Option Response) : List WsCall :=
  if dlookup scope "type" = some (Value.vstr "websocket") ∧ is_open then
    [WsCall.closeCall Status.OK (responseClosePayload response)]
  else []

/-! Dictionary lemmas. -/

theorem dlookup_dset_self (d : Msg) (k : String) (v : Value) :
    dlookup (dset d k v) k = some v := by
  induction d with
  | nil => simp [dset, dlookup]
  | cons p rest ih =>
      obtain ⟨k1, v1⟩ := p
      by_cases h : k1 = k
      · simp [dset, h, dlookup]
      · simp [dset, h, dlookup, ih]

theorem dlookup_dset_of_ne (d : Msg) (k : String) (v : Value) (q : String)
    (h : q ≠ k) : dlookup (dset d k v) q = dlookup d q := by
  induction d with
  | nil =>
      have hk : ¬k = q := fun hk => h hk.symm
      simp [dset, dlookup, hk]
  | cons p rest ih =>
      obtain ⟨k1, v1⟩ := p
      by_cases hk : k1 = k
      · subst hk
        have hq : ¬k1 = q := fun hq => h hq.symm
        simp [dset, dlookup, hq]
      · simp [dset, hk, dlookup, ih]

theorem dlookup_dupdate_of_none (kw : Msg) (d : Msg) (k : String)
    (h : dlookup kw k = none) : dlookup (dupdate d kw) k = dlookup d k := by
  induction kw generalizing d with
  | nil => simp [dupdate]
  | cons p rest ih =>
      obtain ⟨k1, v1⟩ := p
      simp only [dlookup] at h
      by_cases hk : k1 = k
      · simp [hk] at h
      · rw [if_neg hk] at h
        show dlookup (dupdate (dset d k1 v1) rest) k = dlookup d k
        rw [ih (dset d k1 v1) h, dlookup_dset_of_ne _ _ _ _ (fun hq => hk hq.symm)]

theorem dlookup_eq_none_of_not_mem (d : Msg) (k : String)
    (h : k ∉ d.map Prod.fst) : dlookup d k = none := by
  induction d with
  | nil => simp [dlookup]
  | cons p rest ih =>
      obtain ⟨k1, v1⟩ := p
      simp only [List.map_cons, List.mem_cons] at h
      push_neg at h
      have hk : ¬k1 = k := fun hk => h.1 hk.symm
      simp [dlookup, hk, ih h.2]

theorem dlookup_dupdate_of_some (kw : Msg) (d : Msg) (k : String) (v : Value)
    (hnd : (kw.map Prod.fst).Nodup) (h : dlookup kw k = some v) :
    dlookup (dupdate d kw) k = some v := by
  induction kw generalizing d with
  | nil => simp [dlookup] at h
  | cons p rest ih =>
      obtain ⟨k1, v1⟩ := p
      simp only [List.map_cons, List.nodup_cons] at hnd
      simp only [dlookup] at h
      show dlookup (dupdate (dset d k1 v1) rest) k = some v
      by_cases hk : k1 = k
      · rw [if_pos hk] at h
        subst hk
        have hrest : dlookup rest k1 = none :=
          dlookup_eq_none_of_not_mem rest k1 hnd.1
        rw [dlookup_dupdate_of_none rest _ _ hrest, dlookup_dset_self, h]
      · rw [if_neg hk] at h
        exact ih (dset d k1 v1) hnd.2 h

theorem dlookup_setContent_of_ne (m : Msg) (data : Option Data) (k : String)
    (ht : k ≠ "text") (hb : k ≠ "bytes") :
    dlookup (setContent m data) k = dlookup m k := by
  match data with
  | none => rfl
  | some (.str s) =>
      by_cases hs : s = ""
      · simp [setContent, hs]
      · simp [setContent, hs, dlookup_dset_of_ne _ _ _ _ ht]
  | some (.bin b) =>
      by_cases hbb : b = []
      · simp [setContent, hbb]
      · simp [setContent, hbb, dlookup_dset_of_ne _ _ _ _ hb]

/-! Claim theorems. -/

/-- Claim C1: whenever the first inbound message has a `type` value other
than `websocket.connect`, `connect()` raises a `WebSocketProtocolError`
whose detail string mentions the unexpected type, carrying the
protocol-error status code 1002, and no accept message is sent outbound. -/
theorem connect_rejects_non_connect (msg : Msg) (t : String)
    (hty : dlookup msg "type" = some (Value.vstr t))
    (hne : t ≠ "websocket.connect") :
    WebSocket.connect msg =
      (Except.error (ConnectError.protocolError
        ⟨"Expected websocket connection but got: " ++ t, 1002⟩), []) ∧
    (∃ p, "Expected websocket connection but got: " ++ t = p ++ t) ∧
    WebSocketProtocolError.defaultStatus = 1002 := by
  refine ⟨?_, ⟨"Expected websocket connection but got: ", rfl⟩, rfl⟩
  unfold WebSocket.connect
  rw [hty]
  have hv : ¬(Value.vstr t = Value.vstr "websocket.connect") := by
    simp [hne]
  dsimp only
  rw [if_neg hv]
  rfl

/-- Witness for C1: the spec scenario where the first inbound message has
type `websocket.send`. -/
theorem connect_rejects_non_connect_witness :
    WebSocket.connect [("type", Value.vstr "websocket.send")] =
      (Except.error (ConnectError.protocolError
        ⟨"Expected websocket connection but got: " ++ "websocket.send", 1002⟩), []) :=
  (connect_rejects_non_connect [("type", Value.vstr "websocket.send")]
    "websocket.send" (by decide) (by decide)).1

/-- Claim C2: whenever the first inbound message has type
`websocket.connect`, `connect()` succeeds and sends exactly one outbound
message, the accept message. -/
theorem connect_accepts_connect (msg : Msg)
    (hty : dlookup msg "type" = some (Value.vstr "websocket.connect")) :
    WebSocket.connect msg =
      (Except.ok (), [[("type", Value.vstr "websocket.accept")]]) ∧
    (WebSocket.connect msg).2.length = 1 := by
  have h : WebSocket.connect msg =
      (Except.ok (), [[("type", Value.vstr "websocket.accept")]]) := by
    unfold WebSocket.connect
    rw [hty]
    dsimp only
    rw [if_pos rfl]
  refine ⟨h, ?_⟩
  rw [h]
  rfl

/-- Witness for C2: a plain connect message is accepted. -/
theorem connect_accepts_connect_witness :
    WebSocket.connect [("type", Value.vstr "websocket.connect")] =
      (Except.ok (), [[("type", Value.vstr "websocket.accept")]]) :=
  (connect_accepts_connect [("type", Value.vstr "websocket.connect")] (by decide)).1

/-- Claim C4: `receive()` returns the value of the `text` field of the
awaited inbound message when present, else the value of the `bytes` field
when present, else an absent result. -/
theorem receive_prefers_text (msg : Msg) :
    (∀ v, dlookup msg "text" = some v → WebSocket.receive msg = some v) ∧
    (dlookup msg "text" = none → ∀ v, dlookup msg "bytes" = some v →
      WebSocket.receive msg = some v) ∧
    (dlookup msg "text" = none → dlookup msg "bytes" = none →
      WebSocket.receive msg = none) := by
  refine ⟨fun v hv => ?_, fun ht v hb => ?_, fun ht hb => ?_⟩
  · unfold WebSocket.receive; rw [hv]
  · unfold WebSocket.receive; rw [ht, hb]
  · unfold WebSocket.receive; rw [ht, hb]

/-- Witness for C4: a message with both fields returns the text, a
bytes-only message returns the bytes, a payload-free message returns
nothing. -/
theorem receive_prefers_text_witness :
    WebSocket.receive [("text", Value.vstr "hi"), ("bytes", Value.vbytes [1])] =
      some (Value.vstr "hi") ∧
    WebSocket.receive [("bytes", Value.vbytes [2])] = some (Value.vbytes [2]) ∧
    WebSocket.receive [("type", Value.vstr "websocket.send")] = none :=
  ⟨(receive_prefers_text _).1 _ (by decide),
   (receive_prefers_text _).2.1 (by decide) _ (by decide),
   (receive_prefers_text _).2.2 (by decide) (by decide)⟩

/-- Claim C6: `on_error` performs exactly the same operations as
`on_response` on every input. -/
theorem on_error_eq_on_response (scope : Msg) (is_open : Bool)
    (response : Option Response) :
    WebSocketAutoHook.on_error scope is_open response =
      WebSocketAutoHook.on_response scope is_open response := rfl

/-- Claim C9 (code bug): `WebSocketClosed` constructed with default
arguments carries the default detail string, but its status code is the
hardcoded 200 handed to the base constructor, not the normal-closure code
1000 that its own `status_code` parameter defaults to. -/
theorem websocketClosed_default_carries_200 :
    WebSocketClosed.make WebSocketClosed.defaultDetail
        WebSocketClosed.defaultStatusParam =
      ⟨"WebSocket has closed", 200⟩ ∧
    WebSocketClosed.defaultStatusParam = Status.OK ∧
    Status.OK = 1000 ∧
    (WebSocketClosed.make WebSocketClosed.defaultDetail
        WebSocketClosed.defaultStatusParam).status_code ≠ 1000 :=
  ⟨rfl, rfl, rfl, by decide⟩

/-- Claim C5: on a `websocket`-typed scope with an open handle,
`on_response` performs exactly one close call carrying the response
content (or no payload when the response is absent); with a closed handle
or a non-websocket scope it performs nothing. -/
theorem on_response_close_behavior (scope : Msg) (response : Option Response) :
    (dlookup scope "type" = some (Value.vstr "websocket") →
      (∀ r, response = some r →
        WebSocketAutoHook.on_response scope true response =
          [WsCall.closeCall Status.OK r.content]) ∧
      (response = none →
        WebSocketAutoHook.on_response scope true response =
          [WsCall.closeCall Status.OK none])) ∧
    (∀ is_open, dlookup scope "type" ≠ some (Value.vstr "websocket") →
      WebSocketAutoHook.on_response scope is_open response = []) ∧
    (WebSocketAutoHook.on_response scope false response = []) := by
  unfold WebSocketAutoHook.on_response
  refine ⟨fun hty => ⟨fun r hr => ?_, fun hr => ?_⟩, fun is_open hty => ?_, ?_⟩
  · subst hr
    rw [if_pos ⟨hty, rfl⟩]
    rfl
  · subst hr
    rw [if_pos ⟨hty, rfl⟩]
    rfl
  · rw [if_neg (fun hc => hty hc.1)]
  · rw [if_neg (fun hc => Bool.false_ne_true hc.2)]

/-- Witness for C5: an open websocket scope closes with the response
content; a closed handle and a non-websocket scope close nothing. -/
theorem on_response_close_behavior_witness :
    WebSocketAutoHook.on_response [("type", Value.vstr "websocket")] true
        (some ⟨some (Data.str "bye")⟩) =
      [WsCall.closeCall Status.OK (some (Data.str "bye"))] ∧
    WebSocketAutoHook.on_response [("type", Value.vstr "websocket")] false
        (some ⟨some (Data.str "bye")⟩) = [] ∧
    WebSocketAutoHook.on_response [("type", Value.vstr "http")] true none = [] :=
  ⟨((on_response_close_behavior [("type", Value.vstr "websocket")]
      (some ⟨some (Data.str "bye")⟩)).1 (by decide)).1 _ rfl,
   (on_response_close_behavior [("type", Value.vstr "websocket")]
      (some ⟨some (Data.str "bye")⟩)).2.2,
   (on_response_close_behavior [("type", Value.vstr "http")] none).2.1
      true (by decide)⟩

/-- Claim C7: on a scope whose type is not `websocket`, none of the three
hook entry points performs any connect or close call. -/
theorem non_websocket_scope_no_calls (scope : Msg)
    (h : dlookup scope "type" ≠ some (Value.vstr "websocket")) :
    WebSocketAutoHook.on_request scope = [] ∧
    (∀ is_open response,
      WebSocketAutoHook.on_response scope is_open response = []) ∧
    (∀ is_open response,
      WebSocketAutoHook.on_error scope is_open response = []) := by
  refine ⟨?_, fun is_open response => ?_, fun is_open response => ?_⟩
  · unfold WebSocketAutoHook.on_request
    rw [if_neg h]
  · unfold WebSocketAutoHook.on_response
    rw [if_neg (fun hc => h hc.1)]
  · unfold WebSocketAutoHook.on_error
    rw [if_neg (fun hc => h hc.1)]

/-- Witness for C7: an `http`-typed scope triggers no calls at any stage. -/
theorem non_websocket_scope_no_calls_witness :
    WebSocketAutoHook.on_request [("type", Value.vstr "http")] = [] ∧
    WebSocketAutoHook.on_response [("type", Value.vstr "http")] true
      (some ⟨some (Data.str "x")⟩) = [] ∧
    WebSocketAutoHook.on_error [("type", Value.vstr "http")] true none = [] :=
  ⟨(non_websocket_scope_no_calls [("type", Value.vstr "http")] (by decide)).1,
   (non_websocket_scope_no_calls [("type", Value.vstr "http")] (by decide)).2.1
      true (some ⟨some (Data.str "x")⟩),
   (non_websocket_scope_no_calls [("type", Value.vstr "http")] (by decide)).2.2
      true none⟩

/-- Claim C8: `close(code, data)` sends exactly one outbound message, of
type `websocket.disconnect`, whose `code` field is the given code; a
nonempty string payload is stored under `text` (and `bytes` stays unset),
a nonempty bytes payload under `bytes` (and `text` stays unset), and an
empty or absent payload sets neither; the `code` parameter defaults to
1000. -/
theorem close_builds_disconnect (code : Nat) (data : Option Data) :
    (WebSocket.close code data).length = 1 ∧
    (∀ m, m ∈ WebSocket.close code data →
      dlookup m "type" = some (Value.vstr "websocket.disconnect") ∧
      dlookup m "code" = some (Value.vint code) ∧
      (∀ s, data = some (Data.str s) → s ≠ "" →
        dlookup m "text" = some (Value.vstr s) ∧ dlookup m "bytes" = none) ∧
      (∀ b, data = some (Data.bin b) → b ≠ [] →
        dlookup m "bytes" = some (Value.vbytes b) ∧ dlookup m "text" = none) ∧
      ((data = none ∨ data = some (Data.str "") ∨ data = some (Data.bin [])) →
        dlookup m "text" = none ∧ dlookup m "bytes" = none)) ∧
    WebSocket.closeDefaultCode = 1000 := by
  refine ⟨rfl, fun m hm => ?_, rfl⟩
  rw [WebSocket.close, List.mem_singleton] at hm
  subst hm
  have hbase : ∀ k, k ≠ "type" → k ≠ "code" →
      dlookup [("type", Value.vstr "websocket.disconnect"),
               ("code", Value.vint code)] k = none := by
    intro k h1 h2
    have ha : ¬("type" = k) := fun hk => h1 hk.symm
    have hb2 : ¬("code" = k) := fun hk => h2 hk.symm
    simp [dlookup, ha, hb2]
  refine ⟨?_, ?_, fun s hd hs => ?_, fun b hd hb => ?_, fun hd => ?_⟩
  · rw [WebSocket.closeMessage,
        dlookup_setContent_of_ne _ _ _ (by decide) (by decide)]
    simp [dlookup]
  · rw [WebSocket.closeMessage,
        dlookup_setContent_of_ne _ _ _ (by decide) (by decide)]
    simp [dlookup]
  · subst hd
    rw [WebSocket.closeMessage]
    simp only [setContent, hs, if_true, ne_eq, not_false_iff, ite_true]
    constructor
    · exact dlookup_dset_self _ _ _
    · rw [dlookup_dset_of_ne _ _ _ _ (by decide)]
      exact hbase "bytes" (by decide) (by decide)
  · subst hd
    rw [WebSocket.closeMessage]
    simp only [setContent, hb, if_true, ne_eq, not_false_iff, ite_true]
    constructor
    · exact dlookup_dset_self _ _ _
    · rw [dlookup_dset_of_ne _ _ _ _ (by decide)]
      exact hbase "text" (by decide) (by decide)
  · have hplain : WebSocket.closeMessage code data =
        [("type", Value.vstr "websocket.disconnect"),
         ("code", Value.vint code)] := by
      rcases hd with h | h | h <;> subst h <;> rfl
    rw [hplain]
    exact ⟨hbase "text" (by decide) (by decide),
           hbase "bytes" (by decide) (by decide)⟩

/-- Witness for C8: closing with code 1006 and payload `"done"` sends one
disconnect message carrying that code and the text payload. -/
theorem close_builds_disconnect_witness :
    dlookup (WebSocket.closeMessage 1006 (some (Data.str "done"))) "type" =
      some (Value.vstr "websocket.disconnect") ∧
    dlookup (WebSocket.closeMessage 1006 (some (Data.str "done"))) "code" =
      some (Value.vint 1006) ∧
    dlookup (WebSocket.closeMessage 1006 (some (Data.str "done"))) "text" =
      some (Value.vstr "done") :=
  ⟨((close_builds_disconnect 1006 (some (Data.str "done"))).2.1 _
      (List.mem_singleton.mpr rfl)).1,
   ((close_builds_disconnect 1006 (some (Data.str "done"))).2.1 _
      (List.mem_singleton.mpr rfl)).2.1,
   (((close_builds_disconnect 1006 (some (Data.str "done"))).2.1 _
      (List.mem_singleton.mpr rfl)).2.2.1 "done" rfl (by decide)).1⟩

/-- Counterexample to claim C3 as stated: `send` merges caller-supplied
keyword fields before storing the payload, so a send call with the string
payload `"hi"` and the extra field `bytes = b"x"` produces an outbound
message that does have a `bytes` field, contradicting "if the payload is a
string ... no `bytes` field" read over every send() call. -/
theorem send_string_payload_bytes_field_counterexample :
    dlookup (WebSocket.send (some (Data.str "hi"))
        [("bytes", Value.vbytes [120])]) "bytes" =
      some (Value.vbytes [120]) := by decide

/-- Claim C3 (amended): for send() calls whose caller-supplied extra
fields do not themselves add the other content field, a nonempty string
payload sets `text` and leaves `bytes` unset, a nonempty bytes payload
sets `bytes` and leaves `text` unset, and an empty or absent payload
leaves both unset. -/
theorem send_payload_fields (data : Option Data) (kwargs : Msg) :
    (∀ s, data = some (Data.str s) → s ≠ "" → dlookup kwargs "bytes" = none →
      dlookup (WebSocket.send data kwargs) "text" = some (Value.vstr s) ∧
      dlookup (WebSocket.send data kwargs) "bytes" = none) ∧
    (∀ b, data = some (Data.bin b) → b ≠ [] → dlookup kwargs "text" = none →
      dlookup (WebSocket.send data kwargs) "bytes" = some (Value.vbytes b) ∧
      dlookup (WebSocket.send data kwargs) "text" = none) ∧
    ((data = none ∨ data = some (Data.str "") ∨ data = some (Data.bin [])) →
      dlookup kwargs "text" = none → dlookup kwargs "bytes" = none →
      dlookup (WebSocket.send data kwargs) "text" = none ∧
      dlookup (WebSocket.send data kwargs) "bytes" = none) := by
  have hbase : ∀ k, k ≠ "type" →
      dlookup [("type", Value.vstr "websocket.send")] k = none := by
    intro k h1
    have ha : ¬("type" = k) := fun hk => h1 hk.symm
    simp [dlookup, ha]
  refine ⟨fun s hd hs hkb => ?_, fun b hd hb hkt => ?_, fun hd hkt hkb => ?_⟩
  · subst hd
    rw [WebSocket.send]
    simp only [setContent, hs, ne_eq, not_false_iff, ite_true]
    refine ⟨dlookup_dset_self _ _ _, ?_⟩
    rw [dlookup_dset_of_ne _ _ _ _ (by decide),
        dlookup_dupdate_of_none _ _ _ hkb]
    exact hbase "bytes" (by decide)
  · subst hd
    rw [WebSocket.send]
    simp only [setContent, hb, ne_eq, not_false_iff, ite_true]
    refine ⟨dlookup_dset_self _ _ _, ?_⟩
    rw [dlookup_dset_of_ne _ _ _ _ (by decide),
        dlookup_dupdate_of_none _ _ _ hkt]
    exact hbase "text" (by decide)
  · have hplain : WebSocket.send data kwargs =
        dupdate [("type", Value.vstr "websocket.send")] kwargs := by
      rcases hd with h | h | h <;> subst h <;> rfl
    rw [hplain]
    rw [dlookup_dupdate_of_none _ _ _ hkt, dlookup_dupdate_of_none _ _ _ hkb]
    exact ⟨hbase "text" (by decide), hbase "bytes" (by decide)⟩

/-- Witness for the amended C3: a plain text send, a plain binary send and
an empty send, each without interfering extra fields. -/
theorem send_payload_fields_witness :
    dlookup (WebSocket.send (some (Data.str "hi")) []) "text" =
      some (Value.vstr "hi") ∧
    dlookup (WebSocket.send (some (Data.str "hi")) []) "bytes" = none ∧
    dlookup (WebSocket.send (some (Data.bin [1, 2])) []) "bytes" =
      some (Value.vbytes [1, 2]) ∧
    dlookup (WebSocket.send none []) "text" = none :=
  ⟨((send_payload_fields (some (Data.str "hi")) []).1 "hi" rfl (by decide)
      (by decide)).1,
   ((send_payload_fields (some (Data.str "hi")) []).1 "hi" rfl (by decide)
      (by decide)).2,
   ((send_payload_fields (some (Data.bin [1, 2])) []).2.1 [1, 2] rfl
      (by decide) (by decide)).1,
   ((send_payload_fields none []).2.2 (Or.inl rfl) (by decide)
      (by decide)).1⟩

/-- Claim C10: caller-supplied extra fields are merged before the payload
is stored: an extra `type` field replaces the default `websocket.send`
type, while an extra `text` (resp. `bytes`) field is overwritten by a
nonempty string (resp. bytes) payload. -/
theorem send_kwargs_merge (data : Option Data) (kwargs : Msg)
    (hnd : (kwargs.map Prod.fst).Nodup) :
    (∀ v, dlookup kwargs "type" = some v →
      dlookup (WebSocket.send data kwargs) "type" = some v) ∧
    (∀ w s, dlookup kwargs "text" = some w → data = some (Data.str s) →
      s ≠ "" →
      dlookup (WebSocket.send data kwargs) "text" = some (Value.vstr s)) ∧
    (∀ w b, dlookup kwargs "bytes" = some w → data = some (Data.bin b) →
      b ≠ [] →
      dlookup (WebSocket.send data kwargs) "bytes" = some (Value.vbytes b)) := by
  refine ⟨fun v hv => ?_, fun w s hw hd hs => ?_, fun w b hw hd hb => ?_⟩
  · rw [WebSocket.send,
        dlookup_setContent_of_ne _ _ _ (by decide) (by decide)]
    exact dlookup_dupdate_of_some _ _ _ _ hnd hv
  · subst hd
    rw [WebSocket.send]
    simp only [setContent, hs, ne_eq, not_false_iff, ite_true]
    exact dlookup_dset_self _ _ _
  · subst hd
    rw [WebSocket.send]
    simp only [setContent, hb, ne_eq, not_false_iff, ite_true]
    exact dlookup_dset_self _ _ _

/-- Witness for C10: an extra `type` survives into the outbound message
while an extra `text` is overwritten by the string payload, and an extra
`bytes` is overwritten by the bytes payload. -/
theorem send_kwargs_merge_witness :
    dlookup (WebSocket.send (some (Data.str "hi"))
        [("type", Value.vstr "custom"), ("text", Value.vstr "old")]) "type" =
      some (Value.vstr "custom") ∧
    dlookup (WebSocket.send (some (Data.str "hi"))
        [("type", Value.vstr "custom"), ("text", Value.vstr "old")]) "text" =
      some (Value.vstr "hi") ∧
    dlookup (WebSocket.send (some (Data.bin [2, 3]))
        [("bytes", Value.vbytes [9])]) "bytes" =
      some (Value.vbytes [2, 3]) :=
  ⟨(send_kwargs_merge (some (Data.str "hi"))
      [("type", Value.vstr "custom"), ("text", Value.vstr "old")]
      (by decide)).1 _ (by decide),
   (send_kwargs_merge (some (Data.str "hi"))
      [("type", Value.vstr "custom"), ("text", Value.vstr "old")]
      (by decide)).2.1 (Value.vstr "old") "hi" (by decide) rfl (by decide),
   (send_kwargs_merge (some (Data.bin [2, 3])) [("bytes", Value.vbytes [9])]
      (by decide)).2.2 (Value.vbytes [9]) [2, 3] (by decide) rfl (by decide)⟩

end ApistarWebsocket
